import Mathlib

/-!
Verification of the yellowstone-grpc client crate
(src/yellowstone-grpc-client/src/lib.rs), shallowly embedded in Lean 4.

The crate itself contains only pure control logic: credential validation and
interception, endpoint/TLS selection, and thin wrappers around remote calls.
External collaborators (the http URI parser, the tonic transport, the remote
geyser service) are represented by an explicit environment of functions, so
that every definition below mirrors the corresponding Rust item and the
theorems quantify over the behavior of the collaborators.
-/

namespace Yellowstone

/-! ## External data types (http / tonic collaborators)

These model the pieces of the external crates that the client inspects or
constructs.  Only the structure the client code actually touches is kept. -/

/-- Model of a parsed `http::Uri`: the client only ever inspects the scheme
(`uri().scheme_str()`); the remainder of the address is kept opaque. -/
structure Uri where
  scheme : Option String
  rest : String
deriving DecidableEq, Repr

/-- `uri.scheme_str()` of the http crate: the scheme as a string, if any. -/
def Uri.scheme_str (u : Uri) : Option String := u.scheme

/-- Model of `http::uri::InvalidUri`, the URI parse failure detail. -/
structure InvalidUriDetail where
  msg : String
deriving DecidableEq, Repr

/-- Model of `tonic::metadata::errors::InvalidMetadataValue`, the failure
detail of converting a string into an ASCII metadata value. -/
structure InvalidMetadataValue where
  mk ::
deriving DecidableEq, Repr

/-- Model of `tonic::metadata::AsciiMetadataValue`: a validated header value,
kept as its byte sequence. -/
structure AsciiMetadataValue where
  bytes : List Nat
deriving DecidableEq, Repr

/-- `AsciiMetadataValue::is_empty`. -/
def AsciiMetadataValue.is_empty (v : AsciiMetadataValue) : Bool :=
  v.bytes.isEmpty

/-- `AsciiMetadataValue::len`: the byte length of the value. -/
def AsciiMetadataValue.len (v : AsciiMetadataValue) : Nat :=
  v.bytes.length

/-- A byte is acceptable in an http header value: visible ASCII, space or
horizontal tab (the check of `http::HeaderValue::from_str`, which backs
`TryInto<AsciiMetadataValue>` for strings). -/
def isValidHeaderByte (b : Nat) : Bool :=
  (32 ≤ b && b ≠ 127 && b ≤ 255) || b == 9

/-- `TryInto<AsciiMetadataValue>` for a string (given as its bytes): succeeds
exactly when every byte is acceptable; the empty string is accepted. -/
def tryIntoAsciiMetadataValue (s : List Nat) :
    Except InvalidMetadataValue AsciiMetadataValue :=
  if s.all isValidHeaderByte then .ok ⟨s⟩ else .error ⟨⟩

/-- Model of `tonic::Status`, a protocol-level failure reported by the peer. -/
structure Status where
  code : Nat
  message : String
deriving DecidableEq, Repr

/-- Model of `tonic::transport::Error`, a transport configuration failure. -/
structure TransportError where
  msg : String
deriving DecidableEq, Repr

/-- Model of `futures::channel::mpsc::SendError`. -/
structure SendError where
  mk ::
deriving DecidableEq, Repr

/-- Model of `tonic::transport::channel::ClientTlsConfig`: explicit TLS
settings, opaque to the client beyond the default constructor. -/
structure ClientTlsConfig where
  settings : List String
deriving DecidableEq, Repr

/-- `ClientTlsConfig::new()`: the default TLS configuration. -/
def ClientTlsConfig.new : ClientTlsConfig :=
  ⟨[]⟩

/-- Model of a tonic `Endpoint` (what `Channel::from_shared` returns): the
parsed URI together with the TLS settings applied so far. -/
structure Endpoint where
  uri : Uri
  tls : Option ClientTlsConfig
deriving DecidableEq, Repr

/-- Model of a lazily connecting `Channel`: `connect_lazy` performs no network
activity, so the channel is fully described by its endpoint configuration. -/
structure Channel where
  endpoint : Endpoint
deriving DecidableEq, Repr

/-- `Endpoint::connect_lazy`. -/
def Endpoint.connect_lazy (e : Endpoint) : Channel :=
  ⟨e⟩

/-- Request metadata (`tonic::metadata::MetadataMap`), as an association list;
`insert` replaces every entry previously stored under the key. -/
def MetadataMap := List (String × AsciiMetadataValue)

instance : DecidableEq MetadataMap := by
  unfold MetadataMap
  infer_instance

/-- Look up the value stored under a key. -/
def MetadataMap.get (m : MetadataMap) (k : String) : Option AsciiMetadataValue :=
  (m.find? (fun p => p.1 == k)).map (fun p => p.2)

/-- `MetadataMap::insert`: replace whatever was stored under the key. -/
def MetadataMap.insert (m : MetadataMap) (k : String) (v : AsciiMetadataValue) :
    MetadataMap :=
  (k, v) :: m.filter (fun p => p.1 != k)

/-- Model of `tonic::Request<()>`: the interceptor sees only the metadata. -/
structure Request where
  metadata : MetadataMap
deriving DecidableEq

/-- Model of `tonic::Response<T>`: `into_inner` extracts the payload. -/
structure Response (α : Type) where
  inner : α
deriving DecidableEq, Repr

/-- `Response::into_inner`. -/
def Response.into_inner {α : Type} (r : Response α) : α :=
  r.inner

/-! ## Protocol message types (yellowstone-grpc-proto / tonic-health
collaborators)

The client only constructs these messages and unwraps the responses; their
contents are otherwise opaque here.  Field names follow the protobuf
definitions. -/

/-- Consistency tier enum of the protocol (`CommitmentLevel`). -/
inductive CommitmentLevel
  | processed
  | confirmed
  | finalized
deriving DecidableEq, Repr

/-- `value as i32`: the wire-numeric form of a commitment level. -/
def CommitmentLevel.toI32 : CommitmentLevel → Int
  | .processed => 0
  | .confirmed => 1
  | .finalized => 2

/-- A named subscription filter for slots; its fields are protocol-owned and
opaque to the client, so the definition is kept abstract as one payload. -/
structure SubscribeRequestFilterSlots where
  payload : Nat
deriving DecidableEq, Repr

/-- A named subscription filter for accounts (payload opaque to the client). -/
structure SubscribeRequestFilterAccounts where
  payload : Nat
deriving DecidableEq, Repr

/-- A named subscription filter for transactions (payload opaque). -/
structure SubscribeRequestFilterTransactions where
  payload : Nat
deriving DecidableEq, Repr

/-- A named subscription filter for blocks (payload opaque). -/
structure SubscribeRequestFilterBlocks where
  payload : Nat
deriving DecidableEq, Repr

/-- A named subscription filter for block metadata (payload opaque). -/
structure SubscribeRequestFilterBlocksMeta where
  payload : Nat
deriving DecidableEq, Repr

/-- The subscription filter-set message (`SubscribeRequest`): five named
filter maps (`HashMap<String, _>` modelled as association lists) plus an
optional wire-numeric commitment level. -/
structure SubscribeRequest where
  slots : List (String × SubscribeRequestFilterSlots)
  accounts : List (String × SubscribeRequestFilterAccounts)
  transactions : List (String × SubscribeRequestFilterTransactions)
  blocks : List (String × SubscribeRequestFilterBlocks)
  blocks_meta : List (String × SubscribeRequestFilterBlocksMeta)
  commitment : Option Int
deriving DecidableEq, Repr

/-- An update event pushed by the server (`SubscribeUpdate`); opaque. -/
structure SubscribeUpdate where
  payload : Nat
deriving DecidableEq, Repr

/-- `HealthCheckRequest` of the generic health-check protocol. -/
structure HealthCheckRequest where
  service : String
deriving DecidableEq, Repr

/-- `HealthCheckResponse` of the generic health-check protocol. -/
structure HealthCheckResponse where
  status : Int
deriving DecidableEq, Repr

/-- `PingRequest`. -/
structure PingRequest where
  count : Int
deriving DecidableEq, Repr

/-- `PongResponse`. -/
structure PongResponse where
  count : Int
deriving DecidableEq, Repr

/-- `GetLatestBlockhashRequest`. -/
structure GetLatestBlockhashRequest where
  commitment : Option Int
deriving DecidableEq, Repr

/-- `GetLatestBlockhashResponse`. -/
structure GetLatestBlockhashResponse where
  slot : Nat
  blockhash : String
  last_valid_block_height : Nat
deriving DecidableEq, Repr

/-- `GetBlockHeightRequest`. -/
structure GetBlockHeightRequest where
  commitment : Option Int
deriving DecidableEq, Repr

/-- `GetBlockHeightResponse`. -/
structure GetBlockHeightResponse where
  block_height : Nat
deriving DecidableEq, Repr

/-- `GetSlotRequest`. -/
structure GetSlotRequest where
  commitment : Option Int
deriving DecidableEq, Repr

/-- `GetSlotResponse`. -/
structure GetSlotResponse where
  slot : Nat
deriving DecidableEq, Repr

/-- `IsBlockhashValidRequest`. -/
structure IsBlockhashValidRequest where
  blockhash : String
  commitment : Option Int
deriving DecidableEq, Repr

/-- `IsBlockhashValidResponse`. -/
structure IsBlockhashValidResponse where
  slot : Nat
  valid : Bool
deriving DecidableEq, Repr

/-- `GetVersionRequest` (empty message). -/
structure GetVersionRequest where
  mk ::
deriving DecidableEq, Repr

/-- `GetVersionResponse`. -/
structure GetVersionResponse where
  version : String
deriving DecidableEq, Repr

/-- A lazily pulled stream of items, each either a payload or a mid-stream
protocol status (`tonic::codec::Streaming<T>`), modelled as the sequence of
items the server will emit; the stream ends when the list does. -/
def Streaming (α : Type) : Type := List (Except Status α)

instance {ε α : Type} [DecidableEq ε] [DecidableEq α] :
    DecidableEq (Except ε α) := fun x y =>
  match x, y with
  | .ok a, .ok b =>
      if h : a = b then isTrue (by rw [h])
      else isFalse (by intro hc; cases hc; exact h rfl)
  | .ok _, .error _ => isFalse (by intro hc; cases hc)
  | .error _, .ok _ => isFalse (by intro hc; cases hc)
  | .error a, .error b =>
      if h : a = b then isTrue (by rw [h])
      else isFalse (by intro hc; cases hc; exact h rfl)

instance {α : Type} [DecidableEq α] : DecidableEq (Streaming α) := by
  unfold Streaming
  infer_instance

/-! ## The external environment

The client delegates to external collaborators: the http URI parser (inside
`Channel::from_shared`), TLS application on the endpoint builder
(`Endpoint::tls_config`, which can fail on malformed TLS material), and the
remote services reached through the stubs.  An `Env` packages their behavior,
so the definitions below are exactly the control logic of the crate and the
theorems quantify over every collaborator behavior. -/

structure Env where
  /-- `Channel::from_shared`: parse the endpoint string as a URI. -/
  parseUri : String → Except InvalidUriDetail Uri
  /-- Failure behavior of `Endpoint::tls_config`: `none` means the TLS
  settings apply cleanly (the endpoint then records them), `some e` means
  applying them fails with transport error `e`. -/
  tlsFailure : Endpoint → ClientTlsConfig → Option TransportError
  /-- Remote behavior of `HealthClient::check`. -/
  healthCheck : HealthCheckRequest → Except Status (Response HealthCheckResponse)
  /-- Remote behavior of `HealthClient::watch`. -/
  healthWatch : HealthCheckRequest →
    Except Status (Response (Streaming HealthCheckResponse))
  /-- Remote behavior of `GeyserClient::subscribe`: opening the duplex stream
  either yields the inbound update stream or fails with a status. -/
  geyserSubscribe : Except Status (Response (Streaming SubscribeUpdate))
  /-- Remote behavior of `GeyserClient::ping`. -/
  geyserPing : PingRequest → Except Status (Response PongResponse)
  /-- Remote behavior of `GeyserClient::get_latest_blockhash`. -/
  geyserGetLatestBlockhash : GetLatestBlockhashRequest →
    Except Status (Response GetLatestBlockhashResponse)
  /-- Remote behavior of `GeyserClient::get_block_height`. -/
  geyserGetBlockHeight : GetBlockHeightRequest →
    Except Status (Response GetBlockHeightResponse)
  /-- Remote behavior of `GeyserClient::get_slot`. -/
  geyserGetSlot : GetSlotRequest → Except Status (Response GetSlotResponse)
  /-- Remote behavior of `GeyserClient::is_blockhash_valid`. -/
  geyserIsBlockhashValid : IsBlockhashValidRequest →
    Except Status (Response IsBlockhashValidResponse)
  /-- Remote behavior of `GeyserClient::get_version`. -/
  geyserGetVersion : GetVersionRequest → Except Status (Response GetVersionResponse)

/-- `Endpoint::tls_config`: apply TLS settings to the endpoint builder; on
success the endpoint records the supplied configuration. -/
def Endpoint.tls_config (e : Endpoint) (env : Env) (cfg : ClientTlsConfig) :
    Except TransportError Endpoint :=
  match env.tlsFailure e cfg with
  | some err => .error err
  | none => .ok { e with tls := some cfg }

/-! ## The client crate (src/yellowstone-grpc-client/src/lib.rs) -/

/-- `InterceptorFn`: the credential interceptor, holding the validated
credential (or none). -/
structure InterceptorFn where
  x_token : Option AsciiMetadataValue
deriving DecidableEq

/-- `impl Interceptor for InterceptorFn`: insert the configured credential
under the key "x-token" if present; always return `Ok`. -/
def InterceptorFn.call (self : InterceptorFn) (request : Request) :
    Except Status Request :=
  match self.x_token with
  | some x_token =>
      .ok { request with metadata := request.metadata.insert "x-token" x_token }
  | none => .ok request

/-- `GeyserGrpcClientError`: the error enum of the crate. -/
inductive GeyserGrpcClientError
  | InvalidUri (detail : InvalidUriDetail)
  | MetadataValueError (detail : InvalidMetadataValue)
  | InvalidXTokenLength (length : Nat)
  | TonicError (detail : TransportError)
  | TonicStatus (status : Status)
  | SubscribeSendError (detail : SendError)
deriving DecidableEq, Repr

/-- A service stub wrapped with the interceptor
(`InterceptedService<Channel, F>` holding the shared channel). -/
structure InterceptedService where
  channel : Channel
  interceptor : InterceptorFn
deriving DecidableEq

/-- The client handle: health stub and geyser stub, both sharing one channel
and value-equal copies of one interceptor. -/
structure GeyserGrpcClient where
  health : InterceptedService
  geyser : InterceptedService
deriving DecidableEq

/-- The final `Ok(GeyserGrpcClient { .. })` expression of `connect`: bind the
health and geyser stubs to a clone of the channel and value-equal copies of the
interceptor (`with_interceptor`). -/
def GeyserGrpcClient.bindStubs (channel : Channel) (x_token : Option AsciiMetadataValue) :
    GeyserGrpcClient :=
  let interceptor : InterceptorFn := { x_token }
  { health := { channel, interceptor }
    geyser := { channel, interceptor } }

/-- `GeyserGrpcClient::connect`: parse the endpoint, select and apply TLS,
build the lazy channel, validate the credential, and bind the two stubs.  The
credential argument is given as the byte sequence of the supplied string. -/
def GeyserGrpcClient.connect (env : Env) (endpoint : String)
    (x_token : Option (List Nat)) (tls_config : Option ClientTlsConfig) :
    Except GeyserGrpcClientError GeyserGrpcClient :=
  match env.parseUri endpoint with
  | .error e => .error (GeyserGrpcClientError.InvalidUri e)
  | .ok u =>
    let ep0 : Endpoint := { uri := u, tls := none }
    let epStep : Except GeyserGrpcClientError Endpoint :=
      match tls_config with
      | some cfg =>
          match ep0.tls_config env cfg with
          | .ok e => .ok e
          | .error e => .error (GeyserGrpcClientError.TonicError e)
      | none =>
          if ep0.uri.scheme_str == some "https" then
            match ep0.tls_config env ClientTlsConfig.new with
            | .ok e => .ok e
            | .error e => .error (GeyserGrpcClientError.TonicError e)
          else
            .ok ep0
    match epStep with
    | .error err => .error err
    | .ok ep =>
      let channel := ep.connect_lazy
      let tokenStep : Except GeyserGrpcClientError (Option AsciiMetadataValue) :=
        match x_token with
        | some t =>
            match tryIntoAsciiMetadataValue t with
            | .ok v => .ok (some v)
            | .error e => .error (GeyserGrpcClientError.MetadataValueError e)
        | none => .ok none
      match tokenStep with
      | .error err => .error err
      | .ok x_token =>
        match x_token with
        | some token =>
            if token.is_empty then
              .error (GeyserGrpcClientError.InvalidXTokenLength token.len)
            else
              .ok (GeyserGrpcClient.bindStubs channel (some token))
        | none => .ok (GeyserGrpcClient.bindStubs channel none)

/-! ## Subscription protocol -/

/-- The writable half of the unbounded request channel created by `subscribe`
(`mpsc::unbounded`): the messages enqueued so far, and whether the receiving
end is still alive. -/
structure RequestSink where
  sent : List SubscribeRequest
  receiver_alive : Bool
deriving DecidableEq, Repr

/-- `SinkExt::send` on the unbounded sender: enqueue one message; fails
exactly when the receiving side has been torn down.  The channel is unbounded,
so the operation is a total function of the current state — there is no
waiting on buffer capacity or on server acknowledgement. -/
def RequestSink.send (sink : RequestSink) (msg : SubscribeRequest) :
    Except SendError RequestSink :=
  if sink.receiver_alive then
    .ok { sink with sent := sink.sent ++ [msg] }
  else
    .error ⟨⟩

/-- `GeyserGrpcClient::subscribe`: create the unbounded request channel, hand
its receiving end to the remote `subscribe` call, and return the sending end
together with the inbound update stream. -/
def GeyserGrpcClient.subscribe (env : Env) :
    Except GeyserGrpcClientError (RequestSink × Streaming SubscribeUpdate) :=
  let subscribe_tx : RequestSink := { sent := [], receiver_alive := true }
  match env.geyserSubscribe with
  | .ok response => .ok (subscribe_tx, response.into_inner)
  | .error s => .error (GeyserGrpcClientError.TonicStatus s)

/-- `GeyserGrpcClient::subscribe_once`: open a subscription, send one
`SubscribeRequest` combining the five filter maps and the mapped commitment
level, and return only the update stream. -/
def GeyserGrpcClient.subscribe_once (env : Env)
    (slots : List (String × SubscribeRequestFilterSlots))
    (accounts : List (String × SubscribeRequestFilterAccounts))
    (transactions : List (String × SubscribeRequestFilterTransactions))
    (blocks : List (String × SubscribeRequestFilterBlocks))
    (blocks_meta : List (String × SubscribeRequestFilterBlocksMeta))
    (commitment : Option CommitmentLevel) :
    Except GeyserGrpcClientError (Streaming SubscribeUpdate) :=
  match GeyserGrpcClient.subscribe env with
  | .error err => .error err
  | .ok (subscribe_tx, response) =>
    match subscribe_tx.send
        { slots, accounts, transactions, blocks, blocks_meta
          commitment := commitment.map (fun value => value.toI32) } with
    | .error e => .error (GeyserGrpcClientError.SubscribeSendError e)
    | .ok _ => .ok response

/-! ## Health and unary operations -/

/-- `GeyserGrpcClient::health_check`: unary health check with the fixed
service name. -/
def GeyserGrpcClient.health_check (env : Env) :
    Except GeyserGrpcClientError HealthCheckResponse :=
  let request : HealthCheckRequest := { service := "geyser.Geyser" }
  match env.healthCheck request with
  | .ok response => .ok response.into_inner
  | .error s => .error (GeyserGrpcClientError.TonicStatus s)

/-- `GeyserGrpcClient::health_watch`: streaming health watch with the fixed
service name. -/
def GeyserGrpcClient.health_watch (env : Env) :
    Except GeyserGrpcClientError (Streaming HealthCheckResponse) :=
  let request : HealthCheckRequest := { service := "geyser.Geyser" }
  match env.healthWatch request with
  | .ok response => .ok response.into_inner
  | .error s => .error (GeyserGrpcClientError.TonicStatus s)

/-- `GeyserGrpcClient::ping`. -/
def GeyserGrpcClient.ping (env : Env) (count : Int) :
    Except GeyserGrpcClientError PongResponse :=
  let message : PingRequest := { count }
  match env.geyserPing message with
  | .ok response => .ok response.into_inner
  | .error s => .error (GeyserGrpcClientError.TonicStatus s)

/-- `GeyserGrpcClient::get_latest_blockhash`. -/
def GeyserGrpcClient.get_latest_blockhash (env : Env)
    (commitment : Option CommitmentLevel) :
    Except GeyserGrpcClientError GetLatestBlockhashResponse :=
  let request : GetLatestBlockhashRequest :=
    { commitment := commitment.map (fun value => value.toI32) }
  match env.geyserGetLatestBlockhash request with
  | .ok response => .ok response.into_inner
  | .error s => .error (GeyserGrpcClientError.TonicStatus s)

/-- `GeyserGrpcClient::get_block_height`. -/
def GeyserGrpcClient.get_block_height (env : Env)
    (commitment : Option CommitmentLevel) :
    Except GeyserGrpcClientError GetBlockHeightResponse :=
  let request : GetBlockHeightRequest :=
    { commitment := commitment.map (fun value => value.toI32) }
  match env.geyserGetBlockHeight request with
  | .ok response => .ok response.into_inner
  | .error s => .error (GeyserGrpcClientError.TonicStatus s)

/-- `GeyserGrpcClient::get_slot`. -/
def GeyserGrpcClient.get_slot (env : Env)
    (commitment : Option CommitmentLevel) :
    Except GeyserGrpcClientError GetSlotResponse :=
  let request : GetSlotRequest :=
    { commitment := commitment.map (fun value => value.toI32) }
  match env.geyserGetSlot request with
  | .ok response => .ok response.into_inner
  | .error s => .error (GeyserGrpcClientError.TonicStatus s)

/-- `GeyserGrpcClient::is_blockhash_valid`. -/
def GeyserGrpcClient.is_blockhash_valid (env : Env) (blockhash : String)
    (commitment : Option CommitmentLevel) :
    Except GeyserGrpcClientError IsBlockhashValidResponse :=
  let request : IsBlockhashValidRequest :=
    { blockhash, commitment := commitment.map (fun value => value.toI32) }
  match env.geyserIsBlockhashValid request with
  | .ok response => .ok response.into_inner
  | .error s => .error (GeyserGrpcClientError.TonicStatus s)

/-- `GeyserGrpcClient::get_version`. -/
def GeyserGrpcClient.get_version (env : Env) :
    Except GeyserGrpcClientError GetVersionResponse :=
  let request : GetVersionRequest := {}
  match env.geyserGetVersion request with
  | .ok response => .ok response.into_inner
  | .error s => .error (GeyserGrpcClientError.TonicStatus s)

/-! ## Specification-side definitions

These follow the wording of the specification, for comparison against the
definitions translated from the source. -/

/-- The single filter-set message the specification describes: the five filter
groups combined with the commitment level in wire-numeric form. -/
def combinedFilterSet
    (slots : List (String × SubscribeRequestFilterSlots))
    (accounts : List (String × SubscribeRequestFilterAccounts))
    (transactions : List (String × SubscribeRequestFilterTransactions))
    (blocks : List (String × SubscribeRequestFilterBlocks))
    (blocks_meta : List (String × SubscribeRequestFilterBlocksMeta))
    (commitment : Option CommitmentLevel) : SubscribeRequest :=
  { slots, accounts, transactions, blocks, blocks_meta
    commitment := commitment.map (fun value => value.toI32) }

/-- Worded from the specification: `subscribe_once` should be observably
equivalent to calling `subscribe` and then performing exactly one `send` of
the single `SubscribeRequest` combining the five filter groups and the
commitment level, returning only the update source and discarding the sink. -/
def subscribeThenSendOnce (env : Env)
    (slots : List (String × SubscribeRequestFilterSlots))
    (accounts : List (String × SubscribeRequestFilterAccounts))
    (transactions : List (String × SubscribeRequestFilterTransactions))
    (blocks : List (String × SubscribeRequestFilterBlocks))
    (blocks_meta : List (String × SubscribeRequestFilterBlocksMeta))
    (commitment : Option CommitmentLevel) :
    Except GeyserGrpcClientError (Streaming SubscribeUpdate) :=
  match GeyserGrpcClient.subscribe env with
  | .error err => .error err
  | .ok (sink, source) =>
    match sink.send (combinedFilterSet slots accounts transactions blocks
        blocks_meta commitment) with
    | .error e => .error (GeyserGrpcClientError.SubscribeSendError e)
    | .ok _ => .ok source

/-- Worded from the specification: the effective encryption selection — the
explicit configuration when one is supplied; otherwise the default settings
exactly when the scheme is secure; otherwise none. -/
def effectiveTls (u : Uri) (tls_config : Option ClientTlsConfig) :
    Option ClientTlsConfig :=
  match tls_config with
  | some cfg => some cfg
  | none =>
      if u.scheme_str == some "https" then some ClientTlsConfig.new else none

/-- Worded from the specification: the uniform outcome of a unary remote call
— unwrap the single response payload on success, surface a protocol status as
an error. -/
def unaryOutcome {α : Type} (r : Except Status (Response α)) :
    Except GeyserGrpcClientError α :=
  match r with
  | .ok response => .ok response.into_inner
  | .error s => .error (GeyserGrpcClientError.TonicStatus s)

/-! ## Sample environments (used only to instantiate theorems on concrete
inputs) -/

/-- A parsed form of the address used in the tests of the crate. -/
def sampleUri : Uri :=
  { scheme := some "http", rest := "127.0.0.1:10000" }

/-- A parsed secure-scheme address. -/
def sampleHttpsUri : Uri :=
  { scheme := some "https", rest := "ams17.rpcpool.com:443" }

/-- A concrete environment: two addresses parse, TLS application always
succeeds, and every remote call answers with a fixed successful response. -/
def sampleEnv : Env :=
  { parseUri := fun s =>
      if s = "http://127.0.0.1:10000" then .ok sampleUri
      else if s = "https://ams17.rpcpool.com:443" then .ok sampleHttpsUri
      else .error { msg := s }
    tlsFailure := fun _ _ => none
    healthCheck := fun _ => .ok { inner := { status := 1 } }
    healthWatch := fun _ => .ok { inner := [Except.ok { status := 1 }] }
    geyserSubscribe := .ok { inner := [Except.ok { payload := 7 }] }
    geyserPing := fun r => .ok { inner := { count := r.count } }
    geyserGetLatestBlockhash := fun _ =>
      .ok { inner := { slot := 1, blockhash := "h", last_valid_block_height := 2 } }
    geyserGetBlockHeight := fun _ => .ok { inner := { block_height := 3 } }
    geyserGetSlot := fun _ => .ok { inner := { slot := 4 } }
    geyserIsBlockhashValid := fun _ => .ok { inner := { slot := 5, valid := true } }
    geyserGetVersion := fun _ => .ok { inner := { version := "1.16" } } }

/-- A second environment whose health service rejects every service name other
than "geyser.Geyser" but agrees with `sampleEnv` on that name. -/
def sampleEnvAlt : Env :=
  { sampleEnv with
    healthCheck := fun r =>
      if r.service == "geyser.Geyser" then .ok { inner := { status := 1 } }
      else .error { code := 5, message := "unknown service" }
    healthWatch := fun r =>
      if r.service == "geyser.Geyser" then .ok { inner := [Except.ok { status := 1 }] }
      else .error { code := 5, message := "unknown service" } }

/-! ## Helper lemmas -/

theorem find_filter_of_ne (m : List (String × AsciiMetadataValue)) (k key : String)
    (h : k ≠ key) :
    (m.filter (fun p => p.1 != key)).find? (fun p => p.1 == k) =
      m.find? (fun p => p.1 == k) := by
  induction m with
  | nil => rfl
  | cons a m ih =>
    by_cases ha : a.1 = key
    · have h1 : (a.1 != key) = false := by simp [ha]
      have h2 : (a.1 == k) = false := by simp [ha]; exact fun hc => h hc.symm
      simp [List.filter_cons, h1, List.find?_cons, h2, ih]
    · have h1 : (a.1 != key) = true := by simp [ha]
      by_cases hk : a.1 = k
      · have h2 : (a.1 == k) = true := by simp [hk]
        simp [List.filter_cons, h1, List.find?_cons, h2]
      · have h2 : (a.1 == k) = false := by simp [hk]
        simp [List.filter_cons, h1, List.find?_cons, h2, ih]

theorem MetadataMap.get_insert_self (m : MetadataMap) (k : String)
    (v : AsciiMetadataValue) : (m.insert k v).get k = some v := by
  unfold MetadataMap.insert MetadataMap.get
  simp [List.find?_cons]

theorem MetadataMap.get_insert_ne (m : MetadataMap) (key k : String)
    (v : AsciiMetadataValue) (h : k ≠ key) : (m.insert key v).get k = m.get k := by
  unfold MetadataMap.insert MetadataMap.get
  have h2 : (key == k) = false := by simp; exact fun hc => h hc.symm
  simp only [List.find?_cons, h2]
  rw [find_filter_of_ne m k key h]

/-- Reduction of `connect` once the URI parses and TLS application succeeds on
the endpoint: the remaining behavior is the credential validation, and the
resulting channel carries the effective TLS selection. -/
theorem connect_reduces (env : Env) (endpoint : String) (u : Uri)
    (tls_config : Option ClientTlsConfig) (x_token : Option (List Nat))
    (hparse : env.parseUri endpoint = .ok u)
    (htls : ∀ cfg, env.tlsFailure { uri := u, tls := none } cfg = none) :
    GeyserGrpcClient.connect env endpoint x_token tls_config =
      (match x_token with
       | some t =>
         match tryIntoAsciiMetadataValue t with
         | .ok v =>
             if v.is_empty then
               .error (GeyserGrpcClientError.InvalidXTokenLength v.len)
             else
               .ok (GeyserGrpcClient.bindStubs ⟨⟨u, effectiveTls u tls_config⟩⟩
                 (some v))
         | .error e => .error (GeyserGrpcClientError.MetadataValueError e)
       | none =>
           .ok (GeyserGrpcClient.bindStubs ⟨⟨u, effectiveTls u tls_config⟩⟩ none)) := by
  unfold GeyserGrpcClient.connect Endpoint.tls_config effectiveTls
    Endpoint.connect_lazy
  rw [hparse]
  cases tls_config with
  | some cfg =>
    simp only [htls cfg]
    cases x_token with
    | none => rfl
    | some t =>
      cases h : tryIntoAsciiMetadataValue t with
      | ok v => simp only [h]
      | error e => simp only [h]
  | none =>
    cases hs : (u.scheme_str == some "https") with
    | true =>
      simp only [hs, htls ClientTlsConfig.new, if_pos]
      cases x_token with
      | none => rfl
      | some t =>
        cases h : tryIntoAsciiMetadataValue t with
        | ok v => simp only [h]
        | error e => simp only [h]
    | false =>
      simp only [hs, Bool.false_eq_true, if_false]
      cases x_token with
      | none => rfl
      | some t =>
        cases h : tryIntoAsciiMetadataValue t with
        | ok v => simp only [h]
        | error e => simp only [h]

/-! ## Claims -/

/-- C1: the credential interceptor call operation always returns Ok: with a
configured credential it inserts that value under the fixed key "x-token",
without one it returns the request envelope unmodified, and in either case no
other metadata entry of the request changes. -/
theorem interceptor_call_total_and_exact (i : InterceptorFn) (request : Request) :
    (i.x_token = none → i.call request = .ok request) ∧
    (∀ t, i.x_token = some t →
      i.call request =
        .ok { request with metadata := request.metadata.insert "x-token" t }) ∧
    (∃ r, i.call request = .ok r ∧
      ∀ k, k ≠ "x-token" → r.metadata.get k = request.metadata.get k) := by
  obtain ⟨xt⟩ := i
  cases xt with
  | none =>
    exact ⟨fun _ => rfl, fun t ht => Option.noConfusion ht, request, rfl,
      fun k _ => rfl⟩
  | some t =>
    refine ⟨fun hc => Option.noConfusion hc, fun s hs => ?_,
      { request with metadata := request.metadata.insert "x-token" t }, rfl,
      fun k hk => MetadataMap.get_insert_ne request.metadata "x-token" k t hk⟩
    cases hs
    rfl

/-- C1 witness: at a concrete interceptor and request, the call inserts the
configured token. -/
theorem interceptor_call_total_and_exact_witness :
    InterceptorFn.call { x_token := some ⟨[49]⟩ } { metadata := [] } =
      .ok { metadata := MetadataMap.insert [] "x-token" ⟨[49]⟩ } :=
  (interceptor_call_total_and_exact { x_token := some ⟨[49]⟩ }
    { metadata := [] }).2.1 ⟨[49]⟩ rfl

/-- C10: with a configured credential, interception overwrites any existing
"x-token" metadata entry: afterwards the entry equals the configured token,
whatever the request held before. -/
theorem interceptor_call_overwrites_x_token (t : AsciiMetadataValue)
    (request : Request) :
    (InterceptorFn.call { x_token := some t } request).map
      (fun r => r.metadata.get "x-token") = .ok (some t) := by
  unfold InterceptorFn.call
  simp only [Except.map]
  rw [MetadataMap.get_insert_self]

/-- C3: when the endpoint string fails to parse as a URI, connect returns the
InvalidUri error with the parse failure detail, whatever the credential and
TLS arguments are. -/
theorem connect_invalid_uri_first (env : Env) (endpoint : String)
    (e : InvalidUriDetail) (x_token : Option (List Nat))
    (tls_config : Option ClientTlsConfig)
    (h : env.parseUri endpoint = .error e) :
    GeyserGrpcClient.connect env endpoint x_token tls_config =
      .error (GeyserGrpcClientError.InvalidUri e) := by
  unfold GeyserGrpcClient.connect
  rw [h]

/-- C3 witness: the unparsable address from the tests of the crate fails with
InvalidUri even with a credential and an explicit TLS configuration. -/
theorem connect_invalid_uri_first_witness :
    GeyserGrpcClient.connect sampleEnv "sites/files/images/picture.png"
        (some [49]) (some ClientTlsConfig.new) =
      .error (GeyserGrpcClientError.InvalidUri
        { msg := "sites/files/images/picture.png" }) :=
  connect_invalid_uri_first sampleEnv "sites/files/images/picture.png"
    { msg := "sites/files/images/picture.png" } (some [49])
    (some ClientTlsConfig.new) rfl

/-- C2: for a valid endpoint URI (with TLS application succeeding on it),
connect with a present but empty credential fails with InvalidXTokenLength 0;
the header-value conversion itself accepts the empty string; and connect with
an empty credential never fails with MetadataValueError, for any environment
and arguments whatsoever. -/
theorem connect_empty_token_length_error (env : Env) (endpoint : String)
    (u : Uri) (tls_config : Option ClientTlsConfig)
    (hparse : env.parseUri endpoint = .ok u)
    (htls : ∀ cfg, env.tlsFailure { uri := u, tls := none } cfg = none) :
    GeyserGrpcClient.connect env endpoint (some []) tls_config =
      .error (GeyserGrpcClientError.InvalidXTokenLength 0) ∧
    tryIntoAsciiMetadataValue [] = .ok ⟨[]⟩ ∧
    (∀ (env2 : Env) (ep2 : String) (tls2 : Option ClientTlsConfig)
        (d : InvalidMetadataValue),
      GeyserGrpcClient.connect env2 ep2 (some []) tls2 ≠
        .error (GeyserGrpcClientError.MetadataValueError d)) := by
  refine ⟨?_, rfl, ?_⟩
  · rw [connect_reduces env endpoint u tls_config (some []) hparse htls]
    rfl
  · intro env2 ep2 tls2 d hc
    unfold GeyserGrpcClient.connect at hc
    repeat' split at hc
    all_goals try simp_all [tryIntoAsciiMetadataValue, AsciiMetadataValue.is_empty]
    all_goals repeat' split at hc
    all_goals try simp_all
    all_goals rename_i heq2
    all_goals repeat' split at heq2
    all_goals simp_all

/-- C2 witness: the concrete empty-token scenario from the tests of the crate. -/
theorem connect_empty_token_length_error_witness :
    GeyserGrpcClient.connect sampleEnv "http://127.0.0.1:10000" (some []) none =
      .error (GeyserGrpcClientError.InvalidXTokenLength 0) :=
  (connect_empty_token_length_error sampleEnv "http://127.0.0.1:10000" sampleUri
    none rfl (fun _ => rfl)).1

/-- C4: for a valid endpoint URI (with TLS application succeeding on it),
connect with no credential succeeds, the interceptors of both stubs hold no
token, and they leave every request unchanged. -/
theorem connect_no_token_succeeds (env : Env) (endpoint : String) (u : Uri)
    (tls_config : Option ClientTlsConfig)
    (hparse : env.parseUri endpoint = .ok u)
    (htls : ∀ cfg, env.tlsFailure { uri := u, tls := none } cfg = none) :
    ∃ client,
      GeyserGrpcClient.connect env endpoint none tls_config = .ok client ∧
      client.geyser.interceptor.x_token = none ∧
      client.health.interceptor.x_token = none ∧
      ∀ request, client.geyser.interceptor.call request = .ok request ∧
        client.health.interceptor.call request = .ok request := by
  refine ⟨GeyserGrpcClient.bindStubs ⟨⟨u, effectiveTls u tls_config⟩⟩ none, ?_,
    rfl, rfl, fun request => ⟨rfl, rfl⟩⟩
  rw [connect_reduces env endpoint u tls_config none hparse htls]

/-- C4 witness: the concrete no-credential scenario from the tests of the
crate. -/
theorem connect_no_token_succeeds_witness :
    ∃ client,
      GeyserGrpcClient.connect sampleEnv "http://127.0.0.1:10000" none none =
        .ok client ∧
      client.geyser.interceptor.x_token = none ∧
      client.health.interceptor.x_token = none ∧
      ∀ request, client.geyser.interceptor.call request = .ok request ∧
        client.health.interceptor.call request = .ok request :=
  connect_no_token_succeeds sampleEnv "http://127.0.0.1:10000" sampleUri none
    rfl (fun _ => rfl)

/-- C5: for a valid endpoint URI with a well-formed non-empty credential (and
TLS application succeeding on the endpoint), connect succeeds; the channel of
the resulting client carries the explicit TLS configuration when one was
supplied, otherwise the default configuration exactly when the scheme is
"https", and otherwise none; both stubs share the channel. -/
theorem connect_tls_selection (env : Env) (endpoint : String) (u : Uri)
    (tls_config : Option ClientTlsConfig) (token : List Nat)
    (hparse : env.parseUri endpoint = .ok u)
    (htls : ∀ cfg, env.tlsFailure { uri := u, tls := none } cfg = none)
    (hvalid : token.all isValidHeaderByte = true) (hne : token ≠ []) :
    ∃ client,
      GeyserGrpcClient.connect env endpoint (some token) tls_config =
        .ok client ∧
      client.geyser.channel.endpoint.tls = effectiveTls u tls_config ∧
      client.health.channel = client.geyser.channel ∧
      (∀ cfg, tls_config = some cfg →
        client.geyser.channel.endpoint.tls = some cfg) ∧
      (tls_config = none →
        (client.geyser.channel.endpoint.tls = some ClientTlsConfig.new ↔
          u.scheme_str = some "https")) := by
  have hv : tryIntoAsciiMetadataValue token = .ok ⟨token⟩ := by
    unfold tryIntoAsciiMetadataValue
    rw [hvalid]
    rfl
  have hemp : (AsciiMetadataValue.mk token).is_empty = false := by
    unfold AsciiMetadataValue.is_empty
    simpa using hne
  refine ⟨GeyserGrpcClient.bindStubs ⟨⟨u, effectiveTls u tls_config⟩⟩
    (some ⟨token⟩), ?_, rfl, rfl, ?_, ?_⟩
  · rw [connect_reduces env endpoint u tls_config (some token) hparse htls]
    simp only [hv, hemp, Bool.false_eq_true, if_false]
  · intro cfg hcfg
    subst hcfg
    rfl
  · intro hnone
    subst hnone
    unfold GeyserGrpcClient.bindStubs effectiveTls
    cases hs : (u.scheme_str == some "https") with
    | true =>
      simp only [hs, if_pos]
      simp only [beq_iff_eq] at hs
      simp [hs]
    | false =>
      simp only [hs, Bool.false_eq_true, if_false]
      simp only [beq_eq_false_iff_ne, ne_eq] at hs
      simp [hs]

/-- C5 witness: a secure-scheme endpoint with a well-formed non-empty
credential and no explicit TLS configuration. -/
theorem connect_tls_selection_witness :
    ∃ client,
      GeyserGrpcClient.connect sampleEnv "https://ams17.rpcpool.com:443"
          (some [49]) none =
        .ok client ∧
      client.geyser.channel.endpoint.tls = effectiveTls sampleHttpsUri none ∧
      client.health.channel = client.geyser.channel ∧
      (∀ cfg, (none : Option ClientTlsConfig) = some cfg →
        client.geyser.channel.endpoint.tls = some cfg) ∧
      ((none : Option ClientTlsConfig) = none →
        (client.geyser.channel.endpoint.tls = some ClientTlsConfig.new ↔
          sampleHttpsUri.scheme_str = some "https")) :=
  connect_tls_selection sampleEnv "https://ams17.rpcpool.com:443" sampleHttpsUri
    none [49] rfl (fun _ => rfl) rfl (by simp)

/-- C6: `subscribe_once` equals the composition the specification describes —
`subscribe`, then exactly one `send` of the single request combining the five
filter groups and the commitment level, keeping only the update source; and
whenever `subscribe` succeeds, that one message is enqueued and `subscribe_once`
returns exactly the update source `subscribe` produced. -/
theorem subscribe_once_equiv_subscribe_send (env : Env)
    (slots : List (String × SubscribeRequestFilterSlots))
    (accounts : List (String × SubscribeRequestFilterAccounts))
    (transactions : List (String × SubscribeRequestFilterTransactions))
    (blocks : List (String × SubscribeRequestFilterBlocks))
    (blocks_meta : List (String × SubscribeRequestFilterBlocksMeta))
    (commitment : Option CommitmentLevel) :
    GeyserGrpcClient.subscribe_once env slots accounts transactions blocks
        blocks_meta commitment =
      subscribeThenSendOnce env slots accounts transactions blocks blocks_meta
        commitment ∧
    (∀ sink source, GeyserGrpcClient.subscribe env = .ok (sink, source) →
      ∃ sink2,
        sink.send (combinedFilterSet slots accounts transactions blocks
          blocks_meta commitment) = .ok sink2 ∧
        sink2.sent = sink.sent ++ [combinedFilterSet slots accounts transactions
          blocks blocks_meta commitment] ∧
        GeyserGrpcClient.subscribe_once env slots accounts transactions blocks
          blocks_meta commitment = .ok source) := by
  refine ⟨rfl, ?_⟩
  intro sink source hsub
  unfold GeyserGrpcClient.subscribe at hsub
  cases h : env.geyserSubscribe with
  | error s =>
    rw [h] at hsub
    exact absurd hsub (by simp)
  | ok r =>
    rw [h] at hsub
    simp only [] at hsub
    injection hsub with hp
    injection hp with hA hB
    subst hA
    subst hB
    refine ⟨{ sent := [] ++ [combinedFilterSet slots accounts transactions
      blocks blocks_meta commitment], receiver_alive := true }, rfl, rfl, ?_⟩
    unfold GeyserGrpcClient.subscribe_once GeyserGrpcClient.subscribe
    rw [h]
    rfl

/-- C6 witness: concrete subscription over the sample environment, with empty
filter maps and no commitment level. -/
theorem subscribe_once_equiv_subscribe_send_witness :
    ∃ sink2,
      RequestSink.send { sent := [], receiver_alive := true }
        (combinedFilterSet [] [] [] [] [] none) = .ok sink2 ∧
      sink2.sent = [] ++ [combinedFilterSet [] [] [] [] [] none] ∧
      GeyserGrpcClient.subscribe_once sampleEnv [] [] [] [] [] none =
        .ok [Except.ok { payload := 7 }] :=
  (subscribe_once_equiv_subscribe_send sampleEnv [] [] [] [] [] none).2
    { sent := [], receiver_alive := true } [Except.ok { payload := 7 }] rfl

/-- C7: on the request sink of an open subscription, `send` enqueues exactly
one message when the receiving side is alive, and it returns an error exactly
when the receiving side has been torn down; a sink freshly returned by
`subscribe` has its receiving side alive. -/
theorem send_enqueues_or_fails_iff_closed (sink : RequestSink)
    (msg : SubscribeRequest) :
    (sink.receiver_alive = true →
      sink.send msg = .ok { sink with sent := sink.sent ++ [msg] }) ∧
    ((∃ e, sink.send msg = .error e) ↔ sink.receiver_alive = false) ∧
    (∀ (env : Env) (s : RequestSink) (source : Streaming SubscribeUpdate),
      GeyserGrpcClient.subscribe env = .ok (s, source) →
        s.receiver_alive = true) := by
  refine ⟨?_, ?_, ?_⟩
  · intro ha
    unfold RequestSink.send
    rw [ha]
    rfl
  · unfold RequestSink.send
    cases ha : sink.receiver_alive with
    | true => simp [ha]
    | false =>
      simp [ha]
      exact ⟨⟨⟩, trivial⟩
  · intro env s source hsub
    unfold GeyserGrpcClient.subscribe at hsub
    cases h : env.geyserSubscribe with
    | error st =>
      rw [h] at hsub
      exact absurd hsub (by simp)
    | ok r =>
      rw [h] at hsub
      simp only [] at hsub
      injection hsub with hp
      injection hp with hA hB
      rw [← hA]

/-- C7 witness: a concrete send on a live sink enqueues the message. -/
theorem send_enqueues_or_fails_iff_closed_witness :
    RequestSink.send { sent := [], receiver_alive := true }
        (combinedFilterSet [] [] [] [] [] (some CommitmentLevel.confirmed)) =
      Except.ok
        { sent := [combinedFilterSet [] [] [] [] [] (some CommitmentLevel.confirmed)]
          receiver_alive := true } :=
  (send_enqueues_or_fails_iff_closed { sent := [], receiver_alive := true }
    (combinedFilterSet [] [] [] [] [] (some CommitmentLevel.confirmed))).1 rfl

/-- C8: every unary operation builds its request from its typed parameters —
the optional commitment level mapped to wire-numeric form exactly when
supplied — and its outcome is the uniform one: the unwrapped payload on
success, the protocol status as an error otherwise. -/
theorem unary_uniform_pattern (env : Env) (count : Int) (c : CommitmentLevel)
    (bh : String) :
    GeyserGrpcClient.ping env count = unaryOutcome (env.geyserPing { count }) ∧
    GeyserGrpcClient.get_latest_blockhash env (some c) =
      unaryOutcome (env.geyserGetLatestBlockhash { commitment := some c.toI32 }) ∧
    GeyserGrpcClient.get_latest_blockhash env none =
      unaryOutcome (env.geyserGetLatestBlockhash { commitment := none }) ∧
    GeyserGrpcClient.get_block_height env (some c) =
      unaryOutcome (env.geyserGetBlockHeight { commitment := some c.toI32 }) ∧
    GeyserGrpcClient.get_block_height env none =
      unaryOutcome (env.geyserGetBlockHeight { commitment := none }) ∧
    GeyserGrpcClient.get_slot env (some c) =
      unaryOutcome (env.geyserGetSlot { commitment := some c.toI32 }) ∧
    GeyserGrpcClient.get_slot env none =
      unaryOutcome (env.geyserGetSlot { commitment := none }) ∧
    GeyserGrpcClient.is_blockhash_valid env bh (some c) =
      unaryOutcome (env.geyserIsBlockhashValid
        { blockhash := bh, commitment := some c.toI32 }) ∧
    GeyserGrpcClient.is_blockhash_valid env bh none =
      unaryOutcome (env.geyserIsBlockhashValid
        { blockhash := bh, commitment := none }) ∧
    GeyserGrpcClient.get_version env =
      unaryOutcome (env.geyserGetVersion {}) := by
  refine ⟨?_, ?_, ?_, ?_, ?_, ?_, ?_, ?_, ?_, ?_⟩
  all_goals simp only [GeyserGrpcClient.ping, GeyserGrpcClient.get_latest_blockhash,
    GeyserGrpcClient.get_block_height, GeyserGrpcClient.get_slot,
    GeyserGrpcClient.is_blockhash_valid, GeyserGrpcClient.get_version,
    unaryOutcome, Option.map]
  all_goals split
  all_goals rename_i heq
  all_goals rw [heq]

/-- C9: the two health operations depend on the remote health service only
through the fixed service name "geyser.Geyser" — environments agreeing on that
request are indistinguishable — and on success they unwrap the response to
that fixed-name request. -/
theorem health_fixed_service_name (env env2 : Env)
    (hc : env.healthCheck { service := "geyser.Geyser" } =
      env2.healthCheck { service := "geyser.Geyser" })
    (hw : env.healthWatch { service := "geyser.Geyser" } =
      env2.healthWatch { service := "geyser.Geyser" }) :
    GeyserGrpcClient.health_check env = GeyserGrpcClient.health_check env2 ∧
    GeyserGrpcClient.health_watch env = GeyserGrpcClient.health_watch env2 ∧
    (∀ r, env.healthCheck { service := "geyser.Geyser" } = .ok r →
      GeyserGrpcClient.health_check env = .ok r.into_inner) ∧
    (∀ r, env.healthWatch { service := "geyser.Geyser" } = .ok r →
      GeyserGrpcClient.health_watch env = .ok r.into_inner) := by
  simp only [GeyserGrpcClient.health_check, GeyserGrpcClient.health_watch]
  refine ⟨by rw [hc], by rw [hw], ?_, ?_⟩
  · intro r hr
    rw [hr]
  · intro r hr
    rw [hr]

/-- C9 witness: two concrete environments agreeing only on the fixed service
name give the same health operation results. -/
theorem health_fixed_service_name_witness :
    (GeyserGrpcClient.health_check sampleEnv =
      GeyserGrpcClient.health_check sampleEnvAlt ∧
    GeyserGrpcClient.health_watch sampleEnv =
      GeyserGrpcClient.health_watch sampleEnvAlt ∧
    (∀ r, sampleEnv.healthCheck { service := "geyser.Geyser" } = .ok r →
      GeyserGrpcClient.health_check sampleEnv = .ok r.into_inner) ∧
    (∀ r, sampleEnv.healthWatch { service := "geyser.Geyser" } = .ok r →
      GeyserGrpcClient.health_watch sampleEnv = .ok r.into_inner)) :=
  health_fixed_service_name sampleEnv sampleEnvAlt rfl rfl

end Yellowstone
